import Mathlib

/-!
# Verification of the train-booking service (`src/app.py`)

Shallow embedding of the Flask handlers in `app.py`: JSON values, the
Python-level helpers the handlers use (dict lookup, truthiness, `str`,
`int`, `",".join`, `.split(',')`), the relational store holding the
`bookings` table, and each route handler as a pure function from an
environment (describing how the external store behaves during the
request) and a store state to an HTTP outcome, the new store state, and a
record of which resources the handler opened and closed.
-/

/-- JSON values, as delivered by `request.get_json()` and produced by
`jsonify`. Objects are association lists in insertion order. -/
inductive JVal where
  | null
  | bool (b : Bool)
  | str (s : String)
  | num (n : Int)
  | arr (elems : List JVal)
  | obj (fields : List (String × JVal))

/-- Python dict lookup `data[k]` / membership `k in data` on a JSON object
body: first binding of the key wins. -/
def jlookup (data : List (String × JVal)) (k : String) : Option JVal :=
  (data.find? (fun p => p.1 == k)).map (fun p => p.2)

/-- `data[k]` where the key is known to be present (validation passed);
defaults to `null` so the function is total. -/
def jget (data : List (String × JVal)) (k : String) : JVal :=
  (jlookup data k).getD JVal.null

/-- Python truthiness of a JSON value (`if data["selected_seats"]`). -/
def pyTruthy : JVal → Bool
  | .null => false
  | .bool b => b
  | .num n => n != 0
  | .str s => !s.isEmpty
  | .arr xs => !xs.isEmpty
  | .obj fs => !fs.isEmpty

/-- Python `str(v)` as used in `map(str, data["selected_seats"])`.
On strings it is the identity, which is the only case the claims need;
the other cases are rendered in the evident way. -/
def pyStr : JVal → String
  | .null => "None"
  | .bool b => if b then "True" else "False"
  | .str s => s
  | .num n => toString n
  | .arr _ => "<list>"
  | .obj _ => "<dict>"

/-- Reads a run of decimal digits into an accumulator; fails at the
first non-digit character. -/
def digitsToNat : List Char → Nat → Option Nat
  | [], acc => some acc
  | c :: cs, acc =>
    if c.isDigit then digitsToNat cs (acc * 10 + (c.toNat - 48)) else none

/-- Python `int(s)` on a string: an optional sign followed by at least
one decimal digit; anything else raises `ValueError`. -/
def pyIntOfString (s : String) : Option Int :=
  match s.data with
  | [] => none
  | '-' :: rest =>
    if rest = [] then none
    else (digitsToNat rest 0).map (fun n => -(n : Int))
  | '+' :: rest =>
    if rest = [] then none
    else (digitsToNat rest 0).map (fun n => (n : Int))
  | l => (digitsToNat l 0).map (fun n => (n : Int))

/-- Python `int(v)`: succeeds on integers, booleans and integer-shaped
strings; fails (raises `TypeError`/`ValueError`) on everything else. -/
def pyInt : JVal → Option Int
  | .num n => some n
  | .bool b => some (if b then 1 else 0)
  | .str s => pyIntOfString s
  | _ => none

/-- Python iteration over a value, as `map`/`join` consume it: lists
yield their elements, strings their characters, dicts their keys;
`None`/numbers/booleans are not iterable (`TypeError`). -/
def pyIter : JVal → Option (List JVal)
  | .arr xs => some xs
  | .str s => some (s.data.map (fun c => JVal.str (String.mk [c])))
  | .obj fs => some (fs.map (fun p => JVal.str p.1))
  | _ => none

/-- Core of Python's `s.split(',')`: splits the character list at every
comma, keeping empty pieces; the accumulator holds the current piece
reversed. `"".split(',')` is `[""]`. -/
def splitCommaCh : List Char → List Char → List (List Char)
  | [], acc => [acc.reverse]
  | c :: cs, acc =>
    if c = ',' then acc.reverse :: splitCommaCh cs []
    else splitCommaCh cs (c :: acc)

/-- Python `s.split(',')` (line 135 of `app.py`). -/
def pySplitComma (s : String) : List String :=
  (splitCommaCh s.data []).map String.mk

/-- Python `",".join(xs)` (line 96 of `app.py`). -/
def pyJoinComma : List String → String
  | [] => ""
  | [s] => s
  | s :: rest => s ++ "," ++ pyJoinComma rest

/-- Line 96: `seats_str = ",".join(map(str, data["selected_seats"])) if
data["selected_seats"] else ""`. `none` means the expression raises
(`map` over a non-iterable). -/
def seats_str_val (v : JVal) : Option String :=
  if pyTruthy v then (pyIter v).map (fun xs => pyJoinComma (xs.map pyStr))
  else some ""

/-- The serialization of line 96 restricted to an actual list of seat
strings (the shape the spec's round-trip law quantifies over). -/
def seats_to_text (seats : List String) : String :=
  if seats.isEmpty then "" else pyJoinComma seats

/-- Line 135: `booking["selected_seats"].split(',') if
booking["selected_seats"] else []`. -/
def seats_from_text (s : String) : List String :=
  if s = "" then [] else pySplitComma s

/-- The required-field list of `add_booking`, in source order (lines
77-80). -/
def required_fields : List String :=
  ["name", "phone_no", "from_station", "to_station",
   "travel_date", "travel_time", "no_of_passengers", "class", "selected_seats"]

/-- The validation loop of lines 81-83: the first required key absent
from the payload, if any. -/
def firstMissingField (data : List (String × JVal)) : Option String :=
  required_fields.find? (fun f => (jlookup data f).isNone)

/-- A row of the `bookings` table as the INSERT of lines 91-102 populates
it: the payload values, the coerced passenger count, the comma-joined
seat text, and the store-assigned id and creation timestamp. -/
structure Row where
  id : Nat
  name : JVal
  phone_no : JVal
  from_station : JVal
  to_station : JVal
  travel_date : JVal
  travel_time : JVal
  no_of_passengers : Int
  «class» : JVal
  selected_seats : String
  created_at : Nat

/-- Modelled from the spec: the relational store behind the service is
MySQL, which is not part of this repository. Per §3 of the spec the
store assigns `id` by a strictly increasing auto-increment counter and
`created_at` at insert time, monotonic with insertion order; we model
both with counters carried in the state. Rows are kept in insertion
order. -/
structure Store where
  rows : List Row
  nextId : Nat
  clock : Nat

/-- Which of the handler's scoped resources were opened, and which were
closed again by the `finally` blocks, by the time the handler returned
or propagated. -/
structure ResLog where
  connOpened : Bool
  connClosed : Bool
  cursorOpened : Bool
  cursorClosed : Bool

/-- No resource was ever opened. -/
def noRes : ResLog := ⟨false, false, false, false⟩

/-- Connection and cursor were opened and both closed. -/
def allRes : ResLog := ⟨true, true, true, true⟩

/-- Connection opened and closed, no cursor (health check). -/
def connRes : ResLog := ⟨true, true, false, false⟩

/-- How the external store behaves during one request: whether
`get_db_connection()` yields a connection (it returns `None` on
failure), and whether the statement executed on the cursor raises a
`mysql.connector.Error` with some driver message. -/
structure DbEnv where
  connOk : Bool
  stmtErr : Option String

/-- Outcome of one handler invocation: an HTTP response with a JSON
body, or an exception that no `except` clause matched and that
propagates out of the handler. -/
inductive HResult where
  | resp (status : Nat) (body : JVal)
  | unhandled (exn : String)

/-- Body `{"error": "Database connection failed"}`. -/
def connFailedBody : JVal := .obj [("error", .str "Database connection failed")]

/-- Body `{"error": "Database error: <driver message>"}`. -/
def dbErrorBody (msg : String) : JVal :=
  .obj [("error", .str ("Database error: " ++ msg))]

/-- Body `{"error": "Missing field: <field>"}`. -/
def missingFieldBody (f : String) : JVal :=
  .obj [("error", .str ("Missing field: " ++ f))]

/-- `POST /book` (lines 72-120 of `app.py`). Validation runs before the
`try`; inside the `try` the connection is obtained (`None` → 500),
the cursor opened, `seats_str` computed (line 96, may raise), the
values tuple built including `int(data["no_of_passengers"])` (line 99,
may raise), and the INSERT executed (driver may raise
`mysql.connector.Error`, caught at line 112). Exceptions other than
`mysql.connector.Error` propagate unhandled. The `finally` block closes
whatever was opened on every path. -/
def add_booking (env : DbEnv) (st : Store) (data : List (String × JVal)) :
    HResult × Store × ResLog :=
  match firstMissingField data with
  | some f => (.resp 400 (missingFieldBody f), st, noRes)
  | none =>
    if env.connOk then
      match seats_str_val (jget data "selected_seats") with
      | none =>
        (.unhandled "TypeError: selected_seats value is not iterable", st, allRes)
      | some seatsStr =>
        match pyInt (jget data "no_of_passengers") with
        | none =>
          (.unhandled "ValueError: invalid literal for int()", st, allRes)
        | some np =>
          match env.stmtErr with
          | some msg => (.resp 500 (dbErrorBody msg), st, allRes)
          | none =>
            let row : Row :=
              { id := st.nextId
                name := jget data "name"
                phone_no := jget data "phone_no"
                from_station := jget data "from_station"
                to_station := jget data "to_station"
                travel_date := jget data "travel_date"
                travel_time := jget data "travel_time"
                no_of_passengers := np
                «class» := jget data "class"
                selected_seats := seatsStr
                created_at := st.clock }
            (.resp 201 (.obj
                [("message", .str "Booking added successfully!"),
                 ("booking_id", .num (Int.ofNat st.nextId)),
                 ("data", .obj data)]),
             { rows := st.rows ++ [row], nextId := st.nextId + 1,
               clock := st.clock + 1 },
             allRes)
    else (.resp 500 connFailedBody, st, noRes)

/-- Insert a row into a list sorted by `created_at` descending, before
the first strictly older row. -/
def insertDesc (r : Row) : List Row → List Row
  | [] => [r]
  | x :: xs =>
    if x.created_at < r.created_at then r :: x :: xs
    else x :: insertDesc r xs

/-- Modelled from the spec: MySQL's `ORDER BY created_at DESC` (line 131)
is not repository code; per §4.2 of the spec it returns the rows ordered
by `created_at` descending with ties in an unspecified order. We embed it
as an insertion sort by `created_at` descending; every claim is used only
on states whose timestamps are pairwise distinct, where all conforming
orderings agree. -/
def sortDesc : List Row → List Row
  | [] => []
  | x :: xs => insertDesc x (sortDesc xs)

/-- A row as `GET /bookings` returns it after the line-135 transform:
`selected_seats` is split back into a list of strings. -/
structure OutRow where
  id : Nat
  name : JVal
  phone_no : JVal
  from_station : JVal
  to_station : JVal
  travel_date : JVal
  travel_time : JVal
  no_of_passengers : Int
  «class» : JVal
  selected_seats : List String
  created_at : Nat

/-- The line-135 transform applied to a fetched row. -/
def toOutRow (r : Row) : OutRow :=
  { id := r.id, name := r.name, phone_no := r.phone_no
    from_station := r.from_station, to_station := r.to_station
    travel_date := r.travel_date, travel_time := r.travel_time
    no_of_passengers := r.no_of_passengers, «class» := r.«class»
    selected_seats := seats_from_text r.selected_seats
    created_at := r.created_at }

/-- A returned row as a JSON object, columns in schema order. -/
def outRowJson (r : OutRow) : JVal :=
  .obj
    [("id", .num (Int.ofNat r.id)),
     ("name", r.name),
     ("phone_no", r.phone_no),
     ("from_station", r.from_station),
     ("to_station", r.to_station),
     ("travel_date", r.travel_date),
     ("travel_time", r.travel_time),
     ("no_of_passengers", .num r.no_of_passengers),
     ("class", r.«class»),
     ("selected_seats", .arr (r.selected_seats.map JVal.str)),
     ("created_at", .num (Int.ofNat r.created_at))]

/-- `GET /bookings` (lines 123-146 of `app.py`): connection (`None` →
500), SELECT ordered by `created_at` descending (driver may raise →
caught as a 500 database error), the seat-splitting transform, and the
200 body `{"bookings": [...]}`. The `finally` block closes whatever was
opened. -/
def get_bookings (env : DbEnv) (st : Store) : HResult × ResLog :=
  if env.connOk then
    match env.stmtErr with
    | some msg => (.resp 500 (dbErrorBody msg), allRes)
    | none =>
      (.resp 200 (.obj
          [("bookings",
            .arr ((sortDesc st.rows).map (fun r => outRowJson (toOutRow r))))]),
       allRes)
  else (.resp 500 connFailedBody, noRes)

/-- How the store behaves during a `GET /health` check:
`get_db_connection()` returns `None`; or returns a connection whose
`is_connected()` is true; or one whose `is_connected()` is false; or the
check raises an exception with some message. -/
inductive HealthEnv where
  | noConn
  | live
  | notLive
  | raises (msg : String)

/-- `GET /health` (lines 149-161 of `app.py`). The `finally` block
closes the connection whenever one was obtained, on every path. -/
def health_check : HealthEnv → HResult × ResLog
  | .noConn =>
    (.resp 500 (.obj [("status", .str "unhealthy"), ("database", .str "disconnected")]),
     noRes)
  | .live =>
    (.resp 200 (.obj [("status", .str "healthy"), ("database", .str "connected")]),
     connRes)
  | .notLive =>
    (.resp 500 (.obj [("status", .str "unhealthy"), ("database", .str "disconnected")]),
     connRes)
  | .raises msg =>
    (.resp 500 (.obj [("status", .str "unhealthy"), ("error", .str msg)]),
     connRes)

/-- How the store behaves during startup: connection fails
(`get_db_connection()` returns `None`), or the CREATE TABLE statement
raises a driver error, or everything succeeds. -/
inductive StartupEnv where
  | connFail
  | execErr (msg : String)
  | ok

/-- Fate of the process after the module-level `create_table()` call
(line 176): it keeps running (with the message that was logged), or an
uncaught exception escapes the module-level call and the process dies. -/
inductive StartupOutcome where
  | continues (logged : String)
  | crash (exn : String)

/-- `create_table()` (lines 39-69 of `app.py`), applied to whether the
`bookings` table already exists; returns the process fate and the new
table-existence state. On connection failure `get_db_connection()`
logs and returns `None`, and `conn.cursor()` then raises
`AttributeError`, which `except mysql.connector.Error` does not match:
the exception escapes. A driver error from the CREATE TABLE statement is
caught and logged. The statement is `CREATE TABLE IF NOT EXISTS`, so a
successful run leaves an existing table unchanged. -/
def create_table (env : StartupEnv) (tableExists : Bool) :
    StartupOutcome × Bool :=
  match env with
  | .connFail =>
    (.crash "AttributeError: NoneType object has no attribute cursor", tableExists)
  | .execErr msg => (.continues (" Error creating table: " ++ msg), tableExists)
  | .ok => (.continues "Table created successfully or already exists", true)

/-- Store well-formedness maintained by the insert path: every stored
timestamp is in the past of the clock, and timestamps strictly increase
along insertion order. -/
def WF (st : Store) : Prop :=
  (∀ r ∈ st.rows, r.created_at < st.clock) ∧
    st.rows.Pairwise (fun a b => a.created_at < b.created_at)

/-! ## Helper lemmas -/

theorem splitCommaCh_no_comma (l : List Char) (hl : ',' ∉ l) (acc : List Char) :
    splitCommaCh l acc = [acc.reverse ++ l] := by
  induction l generalizing acc with
  | nil => simp [splitCommaCh]
  | cons c cs ih =>
    have hc : ¬ c = ',' := fun h => hl (h ▸ List.mem_cons_self c cs)
    have hcs : ',' ∉ cs := fun h => hl (List.mem_cons_of_mem c h)
    simp [splitCommaCh, hc, ih hcs, List.reverse_cons, List.append_assoc]

theorem splitCommaCh_comma (l : List Char) (hl : ',' ∉ l) (cs acc : List Char) :
    splitCommaCh (l ++ ',' :: cs) acc = (acc.reverse ++ l) :: splitCommaCh cs [] := by
  induction l generalizing acc with
  | nil => simp [splitCommaCh]
  | cons c l' ih =>
    have hc : ¬ c = ',' := fun h => hl (h ▸ List.mem_cons_self c l')
    have hl' : ',' ∉ l' := fun h => hl (List.mem_cons_of_mem c h)
    simp [splitCommaCh, hc, ih hl', List.reverse_cons, List.append_assoc]

theorem pyJoinComma_cons_cons (s t : String) (rest : List String) :
    (pyJoinComma (s :: t :: rest)).data
      = s.data ++ ',' :: (pyJoinComma (t :: rest)).data := by
  show (s ++ "," ++ pyJoinComma (t :: rest)).data = _
  simp [String.data_append]

theorem pySplit_pyJoin (seats : List String)
    (hcf : ∀ s ∈ seats, ',' ∉ s.data) (hne : seats ≠ []) :
    pySplitComma (pyJoinComma seats) = seats := by
  induction seats with
  | nil => cases hne rfl
  | cons x rest ih =>
    cases rest with
    | nil =>
      show (splitCommaCh (pyJoinComma [x]).data []).map String.mk = [x]
      rw [show pyJoinComma [x] = x from rfl,
        splitCommaCh_no_comma x.data (hcf x (List.mem_cons_self x [])) []]
      rfl
    | cons y rest' =>
      show (splitCommaCh (pyJoinComma (x :: y :: rest')).data []).map String.mk = _
      rw [pyJoinComma_cons_cons,
        splitCommaCh_comma x.data (hcf x (List.mem_cons_self x (y :: rest'))) _ []]
      have htail := ih (fun s hs => hcf s (List.mem_cons_of_mem x hs)) (by simp)
      simpa [pySplitComma] using htail

theorem pyJoinComma_ne_empty (seats : List String) (hne : seats ≠ [])
    (h1 : seats ≠ [""]) : pyJoinComma seats ≠ "" := by
  cases seats with
  | nil => cases hne rfl
  | cons x rest =>
    cases rest with
    | nil =>
      intro h
      exact h1 (by rw [show pyJoinComma [x] = x from rfl] at h; rw [h])
    | cons y rest' =>
      intro h
      have hd : (pyJoinComma (x :: y :: rest')).data = [] := by rw [h]
      rw [pyJoinComma_cons_cons] at hd
      simp at hd

/-- The seat list round-trips through the stored text exactly when it is
not the one-element list containing the empty string (which serializes
to empty text, read back as the empty list by the truthiness guard). -/
theorem seats_text_roundtrip (seats : List String) (h1 : seats ≠ [""])
    (hcf : ∀ s ∈ seats, ',' ∉ s.data) :
    seats_from_text (seats_to_text seats) = seats := by
  cases hs : seats with
  | nil => rfl
  | cons x rest =>
    subst hs
    have hne : x :: rest ≠ ([] : List String) := by simp
    have hjoin : pyJoinComma (x :: rest) ≠ "" :=
      pyJoinComma_ne_empty (x :: rest) hne h1
    have hmt : (x :: rest).isEmpty = false := rfl
    rw [seats_to_text, hmt]
    simp only [Bool.false_eq_true, if_false]
    rw [seats_from_text, if_neg hjoin]
    exact pySplit_pyJoin (x :: rest) hcf hne

theorem insertDesc_last (r : Row) (l : List Row)
    (h : ∀ y ∈ l, r.created_at < y.created_at) :
    insertDesc r l = l ++ [r] := by
  induction l with
  | nil => rfl
  | cons x xs ih =>
    have hx : ¬ x.created_at < r.created_at := by
      have := h x (List.mem_cons_self x xs); omega
    simp only [insertDesc, if_neg hx]
    rw [ih (fun y hy => h y (List.mem_cons_of_mem x hy))]
    rfl

theorem sortDesc_eq_reverse (l : List Row)
    (h : l.Pairwise (fun a b => a.created_at < b.created_at)) :
    sortDesc l = l.reverse := by
  induction l with
  | nil => rfl
  | cons x xs ih =>
    rw [List.pairwise_cons] at h
    show insertDesc x (sortDesc xs) = (x :: xs).reverse
    rw [ih h.2, List.reverse_cons]
    exact insertDesc_last x xs.reverse (fun y hy => h.1 y (List.mem_reverse.1 hy))

theorem sortDesc_snoc (l : List Row) (r : Row)
    (hP : l.Pairwise (fun a b => a.created_at < b.created_at))
    (hlt : ∀ y ∈ l, y.created_at < r.created_at) :
    sortDesc (l ++ [r]) = r :: l.reverse := by
  have hpw : (l ++ [r]).Pairwise (fun a b => a.created_at < b.created_at) := by
    rw [List.pairwise_append]
    refine ⟨hP, List.pairwise_singleton _ _, ?_⟩
    intro a ha b hb
    rw [List.mem_singleton] at hb
    subst hb
    exact hlt a ha
  rw [sortDesc_eq_reverse _ hpw, List.reverse_append]
  rfl

theorem find?_eq_get_of_first (p : String → Bool) (l : List String) (i : Nat)
    (hi : i < l.length) (hpi : p (l.get ⟨i, hi⟩) = true)
    (hlt : ∀ j (hj : j < i), p (l.get ⟨j, Nat.lt_trans hj hi⟩) = false) :
    l.find? p = some (l.get ⟨i, hi⟩) := by
  induction l generalizing i with
  | nil => exact absurd hi (Nat.not_lt_zero i)
  | cons x xs ih =>
    cases i with
    | zero => exact List.find?_cons_of_pos xs hpi
    | succ i' =>
      have hx : p x = false := hlt 0 (Nat.succ_pos i')
      rw [List.find?_cons_of_neg xs (by simp [hx])]
      exact ih i' (Nat.lt_of_succ_lt_succ hi) hpi
        (fun j hj => hlt (j + 1) (Nat.succ_lt_succ hj))

/-! ## Concrete fixtures -/

/-- The spec §8 example payload. -/
def payload0 : List (String × JVal) :=
  [("name", .str "A"), ("phone_no", .str "123"), ("from_station", .str "X"),
   ("to_station", .str "Y"), ("travel_date", .str "2024-01-01"),
   ("travel_time", .str "10:00"), ("no_of_passengers", .num 2),
   ("class", .str "AC"), ("selected_seats", .arr [.str "A1", .str "A2"])]

/-- A payload whose `no_of_passengers` cannot be coerced to an integer. -/
def payloadBadInt : List (String × JVal) :=
  [("name", .str "A"), ("phone_no", .str "123"), ("from_station", .str "X"),
   ("to_station", .str "Y"), ("travel_date", .str "2024-01-01"),
   ("travel_time", .str "10:00"), ("no_of_passengers", .str "two"),
   ("class", .str "AC"), ("selected_seats", .arr [.str "A1"])]

/-- A payload whose seat list is the one-element list containing the
empty string (a comma-free string). -/
def payloadEmptySeat : List (String × JVal) :=
  [("name", .str "A"), ("phone_no", .str "123"), ("from_station", .str "X"),
   ("to_station", .str "Y"), ("travel_date", .str "2024-01-01"),
   ("travel_time", .str "10:00"), ("no_of_passengers", .num 2),
   ("class", .str "AC"), ("selected_seats", .arr [.str ""])]

/-- A payload whose `no_of_passengers` is the coercible string "2". -/
def payloadStrInt : List (String × JVal) :=
  [("name", .str "A"), ("phone_no", .str "123"), ("from_station", .str "X"),
   ("to_station", .str "Y"), ("travel_date", .str "2024-01-01"),
   ("travel_time", .str "10:00"), ("no_of_passengers", .str "2"),
   ("class", .str "AC"), ("selected_seats", .arr [.str "A1"])]

/-- A payload with every required key except `phone_no`. -/
def payloadMissingPhone : List (String × JVal) :=
  [("name", .str "A"), ("from_station", .str "X"), ("to_station", .str "Y"),
   ("travel_date", .str "2024-01-01"), ("travel_time", .str "10:00"),
   ("no_of_passengers", .num 2), ("class", .str "AC"),
   ("selected_seats", .arr [.str "A1"])]

/-- The empty store, auto-increment counter at 1. -/
def st0 : Store := { rows := [], nextId := 1, clock := 0 }

/-! ## Claims -/

/-- C2, counterexample: the one-element seat list containing the empty
string is a non-empty sequence of comma-free seat strings, yet
serializing it as `POST /book` does (`",".join` guarded by truthiness)
and reading it back as `GET /bookings` does yields the empty list, not
the original sequence. -/
theorem seats_roundtrip_cex :
    seats_from_text (seats_to_text [""]) = ([] : List String) ∧
      ([""] : List String) ≠ [] := by
  refine ⟨rfl, by decide⟩

/-- C2, amended: for every non-empty sequence of comma-free seat strings
other than the one-element sequence containing the empty string,
splitting the comma-joined serialization as `GET /bookings` does yields
the original sequence; the empty sequence serializes to the empty
string, which deserializes back to the empty sequence, not to `[""]`. -/
theorem seats_roundtrip (seats : List String) (_hne : seats ≠ [])
    (h1 : seats ≠ [""]) (hcf : ∀ s ∈ seats, ',' ∉ s.data) :
    seats_from_text (seats_to_text seats) = seats ∧
      seats_to_text [] = "" ∧ seats_from_text "" = [] :=
  ⟨seats_text_roundtrip seats h1 hcf, rfl, rfl⟩

/-- C2, witness: the round trip evaluated on the seat list
`["A1", "A2"]`. -/
theorem seats_roundtrip_witness :
    (["A1", "A2"] : List String) ≠ [] ∧
      seats_from_text (seats_to_text ["A1", "A2"]) = ["A1", "A2"] :=
  ⟨by decide,
   (seats_roundtrip ["A1", "A2"] (by decide) (by decide) (by decide)).1⟩

/-- C3: a payload whose i-th required field (in the fixed source order
`name`, `phone_no`, `from_station`, `to_station`, `travel_date`,
`travel_time`, `no_of_passengers`, `class`, `selected_seats`) is absent
while every earlier field is present receives HTTP 400 naming exactly
that field; and the check is key-presence only: the payload binding
every required key to `null` passes validation. -/
theorem missing_field_first (env : DbEnv) (st : Store)
    (data : List (String × JVal)) (i : Nat) (hi : i < required_fields.length)
    (hmiss : jlookup data (required_fields.get ⟨i, hi⟩) = none)
    (hpres : ∀ j (hj : j < i),
      (jlookup data (required_fields.get ⟨j, Nat.lt_trans hj hi⟩)).isSome = true) :
    add_booking env st data =
      (.resp 400 (missingFieldBody (required_fields.get ⟨i, hi⟩)), st, noRes) ∧
      firstMissingField (required_fields.map (fun f => (f, JVal.null))) = none := by
  constructor
  · have hfind : firstMissingField data = some (required_fields.get ⟨i, hi⟩) := by
      unfold firstMissingField
      apply find?_eq_get_of_first _ _ i hi
      · rw [hmiss]; rfl
      · intro j hj
        have hp := hpres j hj
        cases h' : jlookup data (required_fields.get ⟨j, Nat.lt_trans hj hi⟩) with
        | none => rw [h'] at hp; exact absurd hp (by simp)
        | some v => rfl
    simp [add_booking, hfind]
  · decide

/-- C3, witness: the payload lacking only `phone_no` is rejected with
`{"error": "Missing field: phone_no"}`. -/
theorem missing_field_first_witness :
    jlookup payloadMissingPhone "phone_no" = none ∧
      add_booking ⟨true, none⟩ st0 payloadMissingPhone =
        (.resp 400 (missingFieldBody "phone_no"), st0, noRes) := by
  refine ⟨rfl, ?_⟩
  exact (missing_field_first ⟨true, none⟩ st0 payloadMissingPhone 1 (by decide)
    rfl
    (fun j hj => by
      cases j with
      | zero => rfl
      | succ n => exact absurd hj (by omega))).1

/-- C10: a payload failing required-field validation is answered 400
before the `try` block: no connection is opened, no cursor is opened, and
the store state is returned unchanged. -/
theorem validation_before_connection (env : DbEnv) (st : Store)
    (data : List (String × JVal)) (f : String)
    (h : firstMissingField data = some f) :
    add_booking env st data = (.resp 400 (missingFieldBody f), st, noRes) ∧
      (add_booking env st data).2.1 = st ∧
      (add_booking env st data).2.2.connOpened = false ∧
      (add_booking env st data).2.2.cursorOpened = false := by
  have hmain : add_booking env st data = (.resp 400 (missingFieldBody f), st, noRes) := by
    simp [add_booking, h]
  exact ⟨hmain, by rw [hmain], by rw [hmain]; rfl, by rw [hmain]; rfl⟩

/-- C10, witness: the validation rejection of the payload lacking
`phone_no` leaves the store untouched and opens nothing. -/
theorem validation_before_connection_witness :
    firstMissingField payloadMissingPhone = some "phone_no" ∧
      (add_booking ⟨true, none⟩ st0 payloadMissingPhone).2.1 = st0 ∧
      (add_booking ⟨true, none⟩ st0 payloadMissingPhone).2.2.connOpened = false :=
  ⟨rfl,
   (validation_before_connection ⟨true, none⟩ st0 payloadMissingPhone "phone_no" rfl).2.1,
   (validation_before_connection ⟨true, none⟩ st0 payloadMissingPhone "phone_no" rfl).2.2.1⟩

/-- C7: for `POST /book` (with a payload that passes validation and whose
seat/passenger transforms succeed) and for `GET /bookings`: an
unobtainable connection yields HTTP 500 with body exactly
`{"error": "Database connection failed"}`, and a connection that
succeeds while the store rejects the statement yields HTTP 500 with body
`{"error": "Database error: <driver message>"}`. -/
theorem db_failure_responses (env : DbEnv) (st : Store)
    (data : List (String × JVal)) (seatsStr : String) (np : Int)
    (hvalid : firstMissingField data = none)
    (hser : seats_str_val (jget data "selected_seats") = some seatsStr)
    (hint : pyInt (jget data "no_of_passengers") = some np) :
    (env.connOk = false →
      (add_booking env st data).1 = .resp 500 connFailedBody ∧
        (get_bookings env st).1 = .resp 500 connFailedBody) ∧
    (∀ msg, env.connOk = true → env.stmtErr = some msg →
      (add_booking env st data).1 = .resp 500 (dbErrorBody msg) ∧
        (get_bookings env st).1 = .resp 500 (dbErrorBody msg)) := by
  constructor
  · intro hc
    constructor
    · simp [add_booking, hvalid, hc]
    · simp [get_bookings, hc]
  · intro msg hc he
    constructor
    · simp [add_booking, hvalid, hc, hser, hint, he]
    · simp [get_bookings, hc, he]

/-- C7, witness: with the store rejecting the statement with message
"Duplicate entry", both handlers answer the database-error 500 on the
example payload. -/
theorem db_failure_responses_witness :
    firstMissingField payload0 = none ∧
      (add_booking ⟨true, some "Duplicate entry"⟩ st0 payload0).1 =
        .resp 500 (dbErrorBody "Duplicate entry") ∧
      (get_bookings ⟨true, some "Duplicate entry"⟩ st0).1 =
        .resp 500 (dbErrorBody "Duplicate entry") := by
  refine ⟨rfl, ?_⟩
  exact (db_failure_responses ⟨true, some "Duplicate entry"⟩ st0 payload0
    "A1,A2" 2 rfl rfl rfl).2 "Duplicate entry" rfl rfl

/-- C8: `GET /health` yields exactly three outcomes — 200
`{"status": "healthy", "database": "connected"}` when a live connection
is obtained; 500 `{"status": "unhealthy", "database": "disconnected"}`
when no live connection is obtained (either no connection or a dead
one); 500 `{"status": "unhealthy", "error": <message>}` when the check
raises — and on every path any opened connection is closed afterward. -/
theorem health_check_cases :
    health_check .live =
      (.resp 200 (.obj [("status", .str "healthy"), ("database", .str "connected")]),
       connRes) ∧
    health_check .noConn =
      (.resp 500 (.obj [("status", .str "unhealthy"), ("database", .str "disconnected")]),
       noRes) ∧
    health_check .notLive =
      (.resp 500 (.obj [("status", .str "unhealthy"), ("database", .str "disconnected")]),
       connRes) ∧
    (∀ msg, health_check (.raises msg) =
      (.resp 500 (.obj [("status", .str "unhealthy"), ("error", .str msg)]), connRes)) ∧
    (∀ e, (health_check e).2.connClosed = (health_check e).2.connOpened) := by
  refine ⟨rfl, rfl, rfl, fun msg => rfl, fun e => ?_⟩
  cases e <;> rfl

/-- C9: on every exit path of every handler — success, handled store
error, validation failure, and unhandled exception — the connection and
cursor close flags equal the corresponding open flags: everything the
handler opened was closed before it returned or propagated. -/
theorem resources_released (env : DbEnv) (st : Store)
    (data : List (String × JVal)) (e : HealthEnv) :
    ((add_booking env st data).2.2.connClosed
        = (add_booking env st data).2.2.connOpened ∧
      (add_booking env st data).2.2.cursorClosed
        = (add_booking env st data).2.2.cursorOpened) ∧
    ((get_bookings env st).2.connClosed = (get_bookings env st).2.connOpened ∧
      (get_bookings env st).2.cursorClosed = (get_bookings env st).2.cursorOpened) ∧
    (health_check e).2.connClosed = (health_check e).2.connOpened := by
  refine ⟨?_, ?_, ?_⟩
  · cases h1 : firstMissingField data with
    | some f => simp [add_booking, h1, noRes]
    | none =>
      cases h2 : env.connOk with
      | false => simp [add_booking, h1, h2, noRes]
      | true =>
        cases h3 : seats_str_val (jget data "selected_seats") with
        | none => simp [add_booking, h1, h2, h3, allRes]
        | some s =>
          cases h4 : pyInt (jget data "no_of_passengers") with
          | none => simp [add_booking, h1, h2, h3, h4, allRes]
          | some np =>
            cases h5 : env.stmtErr with
            | none => simp [add_booking, h1, h2, h3, h4, h5, allRes]
            | some msg => simp [add_booking, h1, h2, h3, h4, h5, allRes]
  · cases h2 : env.connOk with
    | false => simp [get_bookings, h2, noRes]
    | true =>
      cases h5 : env.stmtErr with
      | none => simp [get_bookings, h2, h5, allRes]
      | some msg => simp [get_bookings, h2, h5, allRes]
  · cases e <;> rfl

/-- C9, witness: the resource accounting evaluated on the example
payload against a healthy store and a live health probe. -/
theorem resources_released_witness :
    (add_booking ⟨true, none⟩ st0 payload0).2.2.connClosed
        = (add_booking ⟨true, none⟩ st0 payload0).2.2.connOpened ∧
      (health_check .live).2.connClosed = (health_check .live).2.connOpened :=
  ⟨((resources_released ⟨true, none⟩ st0 payload0 .live).1).1,
   (resources_released ⟨true, none⟩ st0 payload0 .live).2.2⟩

/-- C5, counterexample: with every key present, a connection available
and the seat list fine, the payload whose `no_of_passengers` is the
string "two" does not reach the database-error branch — `except
mysql.connector.Error` (line 112) does not match the coercion failure of
`int()` (line 99), so the exception propagates out of the handler
unhandled instead of producing the `{"error": "Database error: ..."}`
response the claim describes. -/
theorem passenger_coercion_cex :
    (add_booking ⟨true, none⟩ st0 payloadBadInt).1 =
      .unhandled "ValueError: invalid literal for int()" := rfl

/-- C5, amended: for every payload with all nine keys whose
`no_of_passengers` cannot be coerced to an integer, the coercion failure
occurs inside the handler's `try` block but is not caught by the
database-error branch (which catches only driver errors): it propagates
out of the handler as an unhandled exception, and the response is never
the `{"error": "Database error: <driver message>"}` body. -/
theorem passenger_coercion_unhandled (env : DbEnv) (st : Store)
    (data : List (String × JVal)) (seatsStr : String)
    (hvalid : firstMissingField data = none)
    (hconn : env.connOk = true)
    (hser : seats_str_val (jget data "selected_seats") = some seatsStr)
    (hint : pyInt (jget data "no_of_passengers") = none) :
    (add_booking env st data).1 =
      .unhandled "ValueError: invalid literal for int()" ∧
      ∀ msg, (add_booking env st data).1 ≠ .resp 500 (dbErrorBody msg) := by
  have hmain : (add_booking env st data).1 =
      .unhandled "ValueError: invalid literal for int()" := by
    simp [add_booking, hvalid, hconn, hser, hint]
  refine ⟨hmain, fun msg h => ?_⟩
  rw [hmain] at h
  exact HResult.noConfusion h

/-- C5, witness: the amended statement evaluated on the concrete payload
with `no_of_passengers = "two"`. -/
theorem passenger_coercion_witness :
    pyInt (jget payloadBadInt "no_of_passengers") = none ∧
      (add_booking ⟨true, none⟩ st0 payloadBadInt).1 =
        .unhandled "ValueError: invalid literal for int()" :=
  ⟨rfl,
   (passenger_coercion_unhandled ⟨true, none⟩ st0 payloadBadInt "A1"
     rfl rfl rfl rfl).1⟩

/-- C6, counterexample: when `get_db_connection()` fails it logs and
returns `None` (lines 34-36); `conn.cursor()` on `None` (line 42) then
raises `AttributeError`, which `except mysql.connector.Error`
(line 63) does not match — the exception escapes the module-level
`create_table()` call (line 176) and the process dies at startup,
contradicting the claim that every startup failure mode is only logged
and the process continues. -/
theorem create_table_connfail_cex :
    (create_table .connFail false).1 =
      .crash "AttributeError: NoneType object has no attribute cursor" := rfl

/-- C6, amended: at process start the service issues an idempotent
create-table-if-absent statement (running it again on an existing table
is a no-op); a failure to create the table (a driver error from the
statement) is only logged and the process continues; but a failure to
connect to the store makes `conn.cursor()` raise on `None`, which no
handler catches: the process crashes at startup rather than continuing. -/
theorem create_table_behavior (msg : String) (b : Bool) :
    (create_table (.execErr msg) b).1 =
        .continues (" Error creating table: " ++ msg) ∧
      create_table .ok b =
        (.continues "Table created successfully or already exists", true) ∧
      (create_table .ok (create_table .ok b).2).2 = (create_table .ok b).2 ∧
      (create_table .connFail b).1 =
        .crash "AttributeError: NoneType object has no attribute cursor" :=
  ⟨rfl, rfl, rfl, rfl⟩

/-- C6, witness: the amended startup behavior evaluated at a concrete
driver message and table state. -/
theorem create_table_behavior_witness :
    (create_table (.execErr "Access denied") false).1 =
        .continues (" Error creating table: " ++ "Access denied") ∧
      (create_table .ok false).2 = true :=
  ⟨(create_table_behavior "Access denied" false).1,
   by rw [(create_table_behavior "Access denied" false).2.1]⟩

/-- C4: on a well-formed store (timestamps strictly increasing along
insertion order, the invariant the insert path maintains), a successful
`GET /bookings` returns the stored rows in reverse insertion order —
ordered by `created_at` descending, newest first — so a booking inserted
before another appears after it in the listing. -/
theorem bookings_reverse_chron (env : DbEnv) (st : Store) (hWF : WF st)
    (hconn : env.connOk = true) (hstmt : env.stmtErr = none) :
    (get_bookings env st).1 =
      .resp 200 (.obj [("bookings",
        .arr (st.rows.reverse.map (fun r => outRowJson (toOutRow r))))]) := by
  simp [get_bookings, hconn, hstmt, sortDesc_eq_reverse st.rows hWF.2]

/-- A first stored booking, timestamp 0. -/
def rowA : Row :=
  { id := 1, name := .str "A", phone_no := .str "1", from_station := .str "X",
    to_station := .str "Y", travel_date := .str "d", travel_time := .str "t",
    no_of_passengers := 1, «class» := .str "AC", selected_seats := "A1",
    created_at := 0 }

/-- A second stored booking, timestamp 1. -/
def rowB : Row :=
  { id := 2, name := .str "B", phone_no := .str "2", from_station := .str "X",
    to_station := .str "Y", travel_date := .str "d", travel_time := .str "t",
    no_of_passengers := 1, «class» := .str "AC", selected_seats := "B1",
    created_at := 1 }

/-- The store after inserting `rowA` then `rowB`. -/
def stAB : Store := { rows := [rowA, rowB], nextId := 3, clock := 2 }

/-- The two-row store is well-formed. -/
theorem stAB_wf : WF stAB :=
  ⟨by decide, by decide⟩

/-- C4, witness: after inserting `rowA` then `rowB`, the listing is
`[rowB, rowA]`. -/
theorem bookings_reverse_chron_witness :
    WF stAB ∧
      (get_bookings ⟨true, none⟩ stAB).1 =
        .resp 200 (.obj [("bookings",
          .arr [outRowJson (toOutRow rowB), outRowJson (toOutRow rowA)])]) :=
  ⟨stAB_wf, bookings_reverse_chron ⟨true, none⟩ stAB stAB_wf rfl rfl⟩

/-- Line 96 applied to a JSON array of strings computes exactly the
list-level serialization. -/
theorem seats_str_val_of_strs (seats : List String) :
    seats_str_val (JVal.arr (seats.map JVal.str)) = some (seats_to_text seats) := by
  cases seats with
  | nil => rfl
  | cons a l =>
    have hmap : List.map pyStr (List.map JVal.str (a :: l)) = a :: l := by
      rw [List.map_map]
      have h : pyStr ∘ JVal.str = fun x : String => x := funext (fun x => rfl)
      rw [h]
      simp
    have hpt : pyTruthy (JVal.arr (List.map JVal.str (a :: l))) = true := rfl
    rw [seats_str_val, hpt, if_pos rfl]
    show Option.map (fun xs => pyJoinComma (xs.map pyStr))
        (some (List.map JVal.str (a :: l))) = some (seats_to_text (a :: l))
    rw [Option.map_some', hmap]
    rfl

/-- C1, amended: for every payload with all nine keys present whose
`no_of_passengers` is coercible to an integer and whose `selected_seats`
is a JSON array of comma-free strings other than `[""]`, `POST /book`
against a well-formed reachable store returns 201 with body
`{"message": "Booking added successfully!", "booking_id": <assigned id>,
"data": <original input object>}`, and a subsequent `GET /bookings`
lists, newest first, a row whose fields equal the input — except that
`no_of_passengers` is the coerced integer of the input value, as line 99
stores it — with `selected_seats` equal to the same ordered sequence of
strings. -/
theorem booking_roundtrip (st : Store) (hWF : WF st)
    (data : List (String × JVal)) (seats : List String)
    (vn vp vf vt vd vtt vc v7 : JVal) (np : Int)
    (h1 : jlookup data "name" = some vn)
    (h2 : jlookup data "phone_no" = some vp)
    (h3 : jlookup data "from_station" = some vf)
    (h4 : jlookup data "to_station" = some vt)
    (h5 : jlookup data "travel_date" = some vd)
    (h6 : jlookup data "travel_time" = some vtt)
    (h7 : jlookup data "no_of_passengers" = some v7)
    (hnp : pyInt v7 = some np)
    (h8 : jlookup data "class" = some vc)
    (h9 : jlookup data "selected_seats" = some (.arr (seats.map JVal.str)))
    (hcf : ∀ s ∈ seats, ',' ∉ s.data)
    (hseats : seats ≠ [""]) :
    (add_booking ⟨true, none⟩ st data).1 =
      .resp 201 (.obj
        [("message", .str "Booking added successfully!"),
         ("booking_id", .num (Int.ofNat st.nextId)),
         ("data", .obj data)]) ∧
    (get_bookings ⟨true, none⟩ (add_booking ⟨true, none⟩ st data).2.1).1 =
      .resp 200 (.obj
        [("bookings", .arr
          (outRowJson
            { id := st.nextId, name := vn, phone_no := vp, from_station := vf,
              to_station := vt, travel_date := vd, travel_time := vtt,
              no_of_passengers := np, «class» := vc, selected_seats := seats,
              created_at := st.clock } ::
           st.rows.reverse.map (fun r => outRowJson (toOutRow r))))]) := by
  have hvalid : firstMissingField data = none := by
    rw [firstMissingField, List.find?_eq_none]
    intro f hf
    simp only [required_fields, List.mem_cons, List.not_mem_nil, or_false] at hf
    rcases hf with rfl | rfl | rfl | rfl | rfl | rfl | rfl | rfl | rfl <;>
      simp [h1, h2, h3, h4, h5, h6, h7, h8, h9]
  have hser : seats_str_val (jget data "selected_seats")
      = some (seats_to_text seats) := by
    rw [jget, h9, Option.getD_some]
    exact seats_str_val_of_strs seats
  have hint : pyInt (jget data "no_of_passengers") = some np := by
    rw [jget, h7, Option.getD_some]
    exact hnp
  set rowNew : Row :=
    { id := st.nextId, name := jget data "name", phone_no := jget data "phone_no",
      from_station := jget data "from_station", to_station := jget data "to_station",
      travel_date := jget data "travel_date", travel_time := jget data "travel_time",
      no_of_passengers := np, «class» := jget data "class",
      selected_seats := seats_to_text seats, created_at := st.clock } with hrow
  have hadd : add_booking ⟨true, none⟩ st data =
      (.resp 201 (.obj
        [("message", .str "Booking added successfully!"),
         ("booking_id", .num (Int.ofNat st.nextId)),
         ("data", .obj data)]),
       { rows := st.rows ++ [rowNew], nextId := st.nextId + 1, clock := st.clock + 1 },
       allRes) := by
    rw [add_booking, hvalid]
    simp only [hser, hint]
    rfl
  have hadd2 : (add_booking ⟨true, none⟩ st data).2.1 =
      { rows := st.rows ++ [rowNew], nextId := st.nextId + 1, clock := st.clock + 1 } := by
    rw [hadd]
  have hget : ∀ st' : Store, (get_bookings ⟨true, none⟩ st').1 =
      .resp 200 (.obj [("bookings",
        .arr ((sortDesc st'.rows).map (fun r => outRowJson (toOutRow r))))]) := by
    intro st'
    rfl
  have hsort : sortDesc (st.rows ++ [rowNew]) = rowNew :: st.rows.reverse :=
    sortDesc_snoc st.rows rowNew hWF.2 (fun y hy => hWF.1 y hy)
  have hout : toOutRow rowNew =
      { id := st.nextId, name := vn, phone_no := vp, from_station := vf,
        to_station := vt, travel_date := vd, travel_time := vtt,
        no_of_passengers := np, «class» := vc, selected_seats := seats,
        created_at := st.clock } := by
    rw [hrow, toOutRow]
    simp only [jget, h1, h2, h3, h4, h5, h6, h8, Option.getD_some]
    congr 1
    exact seats_text_roundtrip seats hseats hcf
  refine ⟨by rw [hadd], ?_⟩
  rw [hadd2, hget]
  show HResult.resp 200 (.obj [("bookings",
      .arr ((sortDesc (st.rows ++ [rowNew])).map (fun r => outRowJson (toOutRow r))))]) = _
  rw [hsort, List.map_cons, hout]

/-- C1, counterexample: two payloads that are valid in the claim's sense
(all nine keys present, `no_of_passengers` coercible to an integer,
`selected_seats` a sequence of comma-free strings) refute the round trip
as stated. First, the payload whose `selected_seats` is `[""]` is
accepted with 201, but the subsequent listing returns its
`selected_seats` as the empty array, not the original one-element
sequence (the joined text `""` is falsy on read). Second, the payload
whose `no_of_passengers` is the coercible string `"2"` is accepted with
201, but the listing returns `no_of_passengers` as the number 2 — the
coerced integer line 99 stored — which does not equal the input
string. -/
theorem booking_roundtrip_cex :
    (add_booking ⟨true, none⟩ st0 payloadEmptySeat).1 =
      .resp 201 (.obj
        [("message", .str "Booking added successfully!"),
         ("booking_id", .num 1),
         ("data", .obj payloadEmptySeat)]) ∧
    (get_bookings ⟨true, none⟩ (add_booking ⟨true, none⟩ st0 payloadEmptySeat).2.1).1 =
      .resp 200 (.obj
        [("bookings", .arr
          [.obj
            [("id", .num 1), ("name", .str "A"), ("phone_no", .str "123"),
             ("from_station", .str "X"), ("to_station", .str "Y"),
             ("travel_date", .str "2024-01-01"), ("travel_time", .str "10:00"),
             ("no_of_passengers", .num 2), ("class", .str "AC"),
             ("selected_seats", .arr []), ("created_at", .num 0)]])]) ∧
    JVal.arr [] ≠ JVal.arr [JVal.str ""] ∧
    (add_booking ⟨true, none⟩ st0 payloadStrInt).1 =
      .resp 201 (.obj
        [("message", .str "Booking added successfully!"),
         ("booking_id", .num 1),
         ("data", .obj payloadStrInt)]) ∧
    (get_bookings ⟨true, none⟩ (add_booking ⟨true, none⟩ st0 payloadStrInt).2.1).1 =
      .resp 200 (.obj
        [("bookings", .arr
          [.obj
            [("id", .num 1), ("name", .str "A"), ("phone_no", .str "123"),
             ("from_station", .str "X"), ("to_station", .str "Y"),
             ("travel_date", .str "2024-01-01"), ("travel_time", .str "10:00"),
             ("no_of_passengers", .num 2), ("class", .str "AC"),
             ("selected_seats", .arr [.str "A1"]), ("created_at", .num 0)]])]) ∧
    JVal.num 2 ≠ JVal.str "2" := by
  refine ⟨rfl, rfl, ?_, rfl, rfl, fun h => JVal.noConfusion h⟩
  intro h
  injection h with h2
  simp at h2

/-- C1, witness: the round trip evaluated on the spec's example payload
against the empty store. -/
theorem booking_roundtrip_witness :
    WF st0 ∧
      (add_booking ⟨true, none⟩ st0 payload0).1 =
        .resp 201 (.obj
          [("message", .str "Booking added successfully!"),
           ("booking_id", .num (Int.ofNat st0.nextId)),
           ("data", .obj payload0)]) ∧
      (get_bookings ⟨true, none⟩ (add_booking ⟨true, none⟩ st0 payload0).2.1).1 =
        .resp 200 (.obj
          [("bookings", .arr
            (outRowJson
              { id := st0.nextId, name := .str "A", phone_no := .str "123",
                from_station := .str "X", to_station := .str "Y",
                travel_date := .str "2024-01-01", travel_time := .str "10:00",
                no_of_passengers := 2, «class» := .str "AC",
                selected_seats := ["A1", "A2"], created_at := st0.clock } ::
             st0.rows.reverse.map (fun r => outRowJson (toOutRow r))))]) := by
  have hwf : WF st0 := ⟨by decide, by decide⟩
  refine ⟨hwf, ?_⟩
  exact booking_roundtrip st0 hwf payload0 ["A1", "A2"]
    (.str "A") (.str "123") (.str "X") (.str "Y") (.str "2024-01-01")
    (.str "10:00") (.str "AC") (.num 2) 2
    rfl rfl rfl rfl rfl rfl rfl rfl rfl rfl (by decide) (by decide)
